import Mathlib

/-!
# Verification of the Multi-Agent-Surveillance simulation engine

Shallow embedding of `src/simulation/world.py` (class `World` and its helper
entities) together with theorems checking the natural-language specification
against it.

Conventions of the embedding:
* Python floats are embedded as rationals (`ℚ`); all arithmetic in the engine
  is exact on the values that actually occur.
* A comparison `(v).length < c` on a `vectormath` vector `v` (with `c ≥ 0`)
  is embedded as the squared comparison `lengthSq v < c ^ 2`, avoiding the
  irrational square root.
* The two transcendental quantities of the vision check (`d.length` and
  `math.degrees(math.atan2(d.y, d.x))`) are abstracted as parameters of the
  visibility predicate; everything else in that formula is exact rational
  arithmetic.
* `vectormath`'s `as_length` (used only by the corner-snap branch of the
  collision check) normalizes a vector to a given length, which is irrational
  in general; it is passed as an explicit function parameter `aL` to the
  collision check.  All theorems below either hold for every such function or
  concern runs in which the snap branch is not taken.
* The agent behavior callbacks (`agent.tick`, `agent.on_noise`) are external
  strategy code (spec §6); they are passed as function parameters that may
  mutate only the agent's own mutable state, per the callback contract of the
  spec (§4.6 step 3).
-/

/-- A 2D vector / position with rational coordinates (embeds
`vmath.Vector2` / `util.Position`). -/
structure Pos where
  x : ℚ
  y : ℚ
deriving DecidableEq, Repr

instance : Add Pos := ⟨fun p q => ⟨p.x + q.x, p.y + q.y⟩⟩

instance : Sub Pos := ⟨fun p q => ⟨p.x - q.x, p.y - q.y⟩⟩

/-- Squaring, written with `*` so that it evaluates by unfolding. -/
def sqQ (c : ℚ) : ℚ := c * c

/-- Squared Euclidean length of a vector: `v.length * v.length`. -/
def lengthSq (v : Pos) : ℚ := v.x * v.x + v.y * v.y

/-- Squared Euclidean distance between two points.  For `c ≥ 0`,
`(p - q).length < c` in the source is embedded as `distSq p q < sqQ c`. -/
def distSq (p q : Pos) : ℚ := lengthSq (p - q)

/-- The map interface consumed by the core (`environment.Map` is an
external collaborator per spec §2/§6): a wall grid addressed by integer
cell coordinates plus the integer map dimensions. -/
structure Map where
  width : ℕ
  height : ℕ
  is_wall : ℤ → ℤ → Bool

/-- A point-to-point message (`world.Message`). -/
structure Message where
  source : ℕ
  target : ℕ
  message : String
deriving DecidableEq, Repr

/-- A noise event (`world.NoiseEvent`): emission tick, location, optional
originating agent, radius. -/
structure NoiseEvent where
  time : ℕ
  location : Pos
  source : Option ℕ
  radius : ℚ
deriving DecidableEq, Repr

/-- Modelled from the spec: the per-agent mutable state of §3 (the class
`simulation.agent.Agent` and its `IntruderAgent` fields are not part of
`src/`; the fields below are exactly those read or written by
`world.py`).  The intruder-only fields (`is_captured`, `reached_target`,
the three target counters, `target`) are meaningful only when the agent
is an intruder.  The target counters are Python floats in the source
(`0.0`, `+= 1.0`), hence rationals here. -/
structure AgentState where
  location : Pos
  heading : ℚ
  view_range : ℚ
  view_angle : ℚ
  width : ℚ
  has_collided : Bool
  message_queue_in : List Message
  is_captured : Bool
  reached_target : Bool
  ticks_in_target : ℚ
  ticks_since_target : ℚ
  times_visited_target : ℚ
  target : Pos
deriving DecidableEq, Repr

/-- Modelled from the spec: an agent is its immutable identity (AgentID
and the Guard/Intruder class tag, which Python code cannot change) plus
its mutable state. -/
structure Agent where
  ID : ℕ
  isIntruder : Bool
  st : AgentState
deriving DecidableEq, Repr

/-- A notification delivered to an agent's strategy callbacks by the
win-condition checks (`intruder.on_captured()` /
`intruder.on_reached_target()` in `world.py`): the engine-side record of
each invocation. -/
inductive AgentEvent where
  | on_captured (ID : ℕ)
  | on_reached_target (ID : ℕ)
deriving DecidableEq, Repr

/-- The world state (`World.__init__`): the map, the agent dictionary
(insertion-ordered, embedded as a list), the current-tick noise list,
the historical noise list and the tick counter. -/
structure World where
  map : Map
  agents : List Agent
  noises : List NoiseEvent
  old_noises : List NoiseEvent
  time_ticks : ℕ

/-- The constant `World.TICK_RATE = 20`. -/
def World.TICK_RATE : ℚ := 20

/-- The constant `World.TIME_PER_TICK = 1.0 / TICK_RATE`. -/
def World.TIME_PER_TICK : ℚ := 1 / World.TICK_RATE

/-- The `World.guards` property: the agents that are `GuardAgent`s. -/
def World.guards (w : World) : List Agent :=
  w.agents.filter (fun a => !a.isIntruder)

/-- The `World.intruders` property: the agents that are
`IntruderAgent`s. -/
def World.intruders (w : World) : List Agent :=
  w.agents.filter (fun a => a.isIntruder)

/-- Embeds `World.add_noise`: stamp the event with the current tick and
append it to the current-tick noise list. -/
def World.add_noise (w : World) (noise : NoiseEvent) : World :=
  { w with noises := w.noises ++ [{ noise with time := w.time_ticks }] }

/-- The error raised by `World.transmit_message` when the target AgentID
is not a key of the agent dictionary (a Python `KeyError`). -/
inductive TransmitError where
  | keyError
deriving DecidableEq, Repr

/-- Embeds `World.transmit_message`:
`self.agents[message.target]._message_queue_in.append(message)`.  The
dictionary lookup raises `KeyError` when the target is absent, before
any mutation happens; on success the message is appended to the
target's inbound queue. -/
def World.transmit_message (w : World) (message : Message) : Except TransmitError World :=
  if w.agents.any (fun a => a.ID == message.target) then
    .ok { w with agents := w.agents.map (fun a =>
      if a.ID == message.target then
        { a with st := { a.st with
            message_queue_in := a.st.message_queue_in ++ [message] } }
      else a) }
  else .error .keyError

/-- One intruder's step of `World._target_check` (the body of the
`for ID_intruder, intruder in self.intruders.items()` loop): update the
dwell counters according to whether the intruder is within `0.5` of its
target, then evaluate the two win conditions.  Returns the updated
agent and the list of notifications invoked on it. -/
def World.targetStep (a : Agent) : Agent × List AgentEvent :=
  let st := a.st
  let st :=
    if distSq st.location st.target < sqQ (1/2) then
      let st :=
        if st.ticks_in_target = 0 then
          let st :=
            if st.ticks_since_target * World.TIME_PER_TICK ≥ 3 ∨
                st.times_visited_target = 0 then
              { st with times_visited_target := st.times_visited_target + 1 }
            else st
          { st with ticks_since_target := 0 }
        else st
      { st with ticks_in_target := st.ticks_in_target + 1 }
    else
      if st.ticks_in_target > 0 then
        { st with ticks_since_target := st.ticks_since_target + 1,
                  ticks_in_target := 0 }
      else if st.ticks_since_target > 0 then
        { st with ticks_since_target := st.ticks_since_target + 1 }
      else st
  if st.ticks_in_target * World.TIME_PER_TICK ≥ 3 then
    ({ a with st := { st with reached_target := true } }, [.on_reached_target a.ID])
  else if st.times_visited_target ≥ 2 then
    ({ a with st := { st with reached_target := true } }, [])
  else
    ({ a with st := st }, [])

/-- Embeds `World._target_check`: run `targetStep` on every intruder,
collect the notifications, and report whether all intruders have
reached the target (evaluated on the updated agents). -/
def World._target_check (w : World) : World × List AgentEvent × Bool :=
  let agents' := w.agents.map (fun a => if a.isIntruder then (World.targetStep a).1 else a)
  let evs := (w.agents.map (fun a => if a.isIntruder then (World.targetStep a).2 else [])).flatten
  let w' := { w with agents := agents' }
  (w', evs, w'.intruders.all (fun a => a.st.reached_target))

/-- The inner loop of `World._capture_check` for one intruder (the
`for ID_guard, guard in self.guards.items()` loop): every guard whose
Euclidean distance to the intruder is `< 0.5` marks the intruder
captured and triggers `intruder.on_captured()`. -/
def World.captureLoop (a : Agent) (evs : List AgentEvent) : List Agent → Agent × List AgentEvent
  | [] => (a, evs)
  | guard :: gs =>
    if distSq a.st.location guard.st.location < sqQ (1/2) then
      World.captureLoop { a with st := { a.st with is_captured := true } }
        (evs ++ [.on_captured a.ID]) gs
    else
      World.captureLoop a evs gs

/-- The capture update for one intruder against the guard list. -/
def World.captureOne (gs : List Agent) (a : Agent) : Agent × List AgentEvent :=
  World.captureLoop a [] gs

/-- Embeds `World._capture_check`: run the capture loop for every
intruder and report whether all intruders are captured (evaluated on
the updated agents). -/
def World._capture_check (w : World) : World × List AgentEvent × Bool :=
  let gs := w.guards
  let agents' := w.agents.map (fun a => if a.isIntruder then (World.captureOne gs a).1 else a)
  let evs := (w.agents.map (fun a => if a.isIntruder then (World.captureOne gs a).2 else [])).flatten
  let w' := { w with agents := agents' }
  (w', evs, w'.intruders.all (fun a => a.st.is_captured))

/-- The quick bounds check opening `World._collision_check` (lines
120-127): clamp each coordinate into `[0, width)` resp. `[0, height)`,
using `width - 0.01` / `height - 0.01` as the upper replacement
values. -/
def World.boundsClamp (m : Map) (p : Pos) : Pos :=
  let x := if p.x < 0 then 0 else p.x
  let y := if p.y < 0 then 0 else p.y
  let x := if x ≥ (m.width : ℚ) then (m.width : ℚ) - 1/100 else x
  let y := if y ≥ (m.height : ℚ) then (m.height : ℚ) - 1/100 else y
  ⟨x, y⟩

/-- Embeds `collision_point` from `World._collision_check`: floor the
probe point to its grid cell; if that cell is a wall, return the cell
center. -/
def World.collision_point (m : Map) (px py : ℚ) : Option Pos :=
  if m.is_wall ⌊px⌋ ⌊py⌋ then some ⟨(⌊px⌋ : ℚ) + 1/2, (⌊py⌋ : ℚ) + 1/2⟩ else none

/-- Embeds `circle_collision` from `World._collision_check` (with its
default `r=0.5`): if the probe point's cell is a wall and the agent's
current location is within `r + width/2` of the cell center, snap the
location onto the circle of that radius around the center.  The snapped
point `center + (loc - center).as_length(r + width/2)` uses
`vectormath`'s `as_length`, passed here as the parameter `aL`. -/
def World.circle_collision (m : Map) (aL : Pos → ℚ → Pos) (loc : Pos) (width : ℚ)
    (px py : ℚ) : Option Pos :=
  let r : ℚ := 1/2
  if m.is_wall ⌊px⌋ ⌊py⌋ then
    let center : Pos := ⟨(⌊px⌋ : ℚ) + 1/2, (⌊py⌋ : ℚ) + 1/2⟩
    if distSq loc center < sqQ (r + width/2) then
      some (center + aL (loc - center) (r + width/2))
    else none
  else none

/-- One corner-probe application of `circle_collision`: on a hit, the
agent's location is overwritten with the snapped point and the collided
flag is set. -/
def World.cornerSnap (m : Map) (aL : Pos → ℚ → Pos) (width : ℚ) (px py : ℚ)
    (l : Pos × Bool) : Pos × Bool :=
  match World.circle_collision m aL l.1 width px py with
  | some c => (c, true)
  | none => l

/-- The body of `World._collision_check` for one agent: bounds clamp,
the four edge probes accumulating the push vector (each push term reads
`agent.location` before the push is applied), application of the push,
then the four corner probes applied sequentially (each reads the
location left by the previous one, while the probe points are fixed at
the pre-push coordinates `x`, `y`). -/
def World.collisionOne (m : Map) (aL : Pos → ℚ → Pos) (a : Agent) : Agent :=
  let loc0 := World.boundsClamp m a.st.location
  let width := a.st.width
  let x := loc0.x
  let y := loc0.y
  let cL := World.collision_point m (x - width/2) y
  let cR := World.collision_point m (x + width/2) y
  let cB := World.collision_point m x (y - width/2)
  let cT := World.collision_point m x (y + width/2)
  let push : Pos :=
    ⟨(match cL with | some c => c.x + (1/2 + width/2) - x | none => 0) +
     (match cR with | some c => c.x - (1/2 + width/2) - x | none => 0),
     (match cB with | some c => c.y + (1/2 + width/2) - y | none => 0) +
     (match cT with | some c => c.y - (1/2 + width/2) - y | none => 0)⟩
  let hitEdge := cL.isSome || cR.isSome || cB.isSome || cT.isSome
  let s1 := World.cornerSnap m aL width (x - width/2) (y - width/2) (loc0 + push, false)
  let s2 := World.cornerSnap m aL width (x - width/2) (y + width/2) s1
  let s3 := World.cornerSnap m aL width (x + width/2) (y - width/2) s2
  let s4 := World.cornerSnap m aL width (x + width/2) (y + width/2) s3
  { a with st := { a.st with
      location := s4.1,
      has_collided := a.st.has_collided || hitEdge || s4.2 } }

/-- Embeds `World._collision_check`: apply the per-agent collision
resolution to every agent (the agents do not interact in this pass). -/
def World._collision_check (aL : Pos → ℚ → Pos) (w : World) : World :=
  { w with agents := w.agents.map (World.collisionOne w.map aL) }

/-- Python float modulo `x % m` (result has the sign of `m`; for `m > 0`
the result lies in `[0, m)`). -/
def pyMod (x m : ℚ) : ℚ := x - m * ⌊x / m⌋

/-- The angular deviation computed in `World.tick`:
`abs((-degrees(atan2(d.y, d.x)) + 90 - agent.heading + 180) % 360 - 180)`,
with `atanDeg` standing for the transcendental
`math.degrees(math.atan2(d.y, d.x))`. -/
def World.angle_diff (atanDeg heading : ℚ) : ℚ :=
  |pyMod (-atanDeg + 90 - heading + 180) 360 - 180|

/-- The visibility test of `World.tick` (lines 258-261): `len` stands
for the Euclidean distance `d.length` and `atanDeg` for
`math.degrees(math.atan2(d.y, d.x))`, the two transcendental quantities
of the formula; the test is
`(d.length <= view_range and angle_diff <= view_angle) or d.length <= 1.5`. -/
def World.visibleCode (len atanDeg heading vr va : ℚ) : Bool :=
  decide ((len ≤ vr ∧ World.angle_diff atanDeg heading ≤ va) ∨ len ≤ 3/2)

/-- The random draws consumed by one call to `World.emit_random_noise`:
the `random.uniform(0, 1)` sample and the two `random.randint` cell
coordinates. -/
structure RandInput where
  u : ℚ
  x : ℤ
  y : ℤ

/-- Embeds `World.emit_random_noise`: with probability
`(10 / 60) * (width * height / 25) * TIME_PER_TICK`, add one ambient
noise event at the drawn cell. -/
def World.emit_random_noise (r : RandInput) (w : World) : World :=
  let event_rate : ℚ := 10
  let random_events_per_second := (event_rate / 60) * ((w.map.width : ℚ) * (w.map.height : ℚ) / 25)
  let chance_to_emit := random_events_per_second * World.TIME_PER_TICK
  if r.u < chance_to_emit then
    w.add_noise ⟨0, ⟨(r.x : ℚ), (r.y : ℚ)⟩, none, 5/2⟩
  else w

/-- Which side `World.tick` declares the winner (the `print` calls). -/
inductive Winner where
  | guards
  | intruders
deriving DecidableEq, Repr

/-- The observable result of one `World.tick` call: the updated world,
the notifications invoked during the win-condition checks, the winner
announced (if any), and the returned boolean (whether the simulation is
finished). -/
structure TickResult where
  world : World
  events : List AgentEvent
  winner : Option Winner
  finished : Bool

/-- Steps (1)-(5) of the per-tick protocol of `World.tick`: (1) roll the
current noise list into history and clear it; (2) possibly emit one
random noise event; (3) per agent, compute the visible set and run the
behavior callback `cb` (the visible set is a pure query feeding only
the callback, which by the callback contract mutates only the agent's
own state, so it is embedded as `cb : Agent → AgentState`);
(4) collision resolution; (5) deliver the current noise list to every
agent's `on_noise` callback `cbNoise`. -/
def World.preCheckWorld (cb : Agent → AgentState)
    (cbNoise : Agent → List NoiseEvent → AgentState)
    (aL : Pos → ℚ → Pos) (r : RandInput) (w : World) : World :=
  let w0 := { w with old_noises := w.old_noises ++ w.noises, noises := [] }
  let w1 := World.emit_random_noise r w0
  let w2 := { w1 with agents := w1.agents.map (fun a => { a with st := cb a }) }
  let w3 := World._collision_check aL w2
  { w3 with agents := w3.agents.map (fun a => { a with st := cbNoise a w3.noises }) }

/-- Embeds `World.tick`, the per-tick protocol: the pre-check phase
(`preCheckWorld`), then (6) the capture check — if all intruders are
captured, report the guards win and return immediately; (7) the target
check — if all intruders reached the target, report the intruders win;
(8) otherwise increment the tick counter (the final re-test of
`all_captured` is the dead re-check of lines 290-292). -/
def World.tick (cb : Agent → AgentState) (cbNoise : Agent → List NoiseEvent → AgentState)
    (aL : Pos → ℚ → Pos) (r : RandInput) (w : World) : TickResult :=
  let w4 := World.preCheckWorld cb cbNoise aL r w
  let c := World._capture_check w4
  if c.2.2 then ⟨c.1, c.2.1, some Winner.guards, true⟩
  else
    let t := World._target_check c.1
    if t.2.2 then ⟨t.1, c.2.1 ++ t.2.1, some Winner.intruders, true⟩
    else
      let w5 := { t.1 with time_ticks := t.1.time_ticks + 1 }
      if c.2.2 then ⟨w5, c.2.1 ++ t.2.1, none, true⟩
      else ⟨w5, c.2.1 ++ t.2.1, none, false⟩

/-- Modelled from the spec: the spec's wording for the vision cone
(§4.1) — the absolute angular deviation between a bearing and a heading
obtained by normalizing the signed difference into `[-180°, 180°]`;
written as the circular distance `min (d % 360) (360 - d % 360)`, which
is exactly the absolute value of the representative of the difference
in `[-180°, 180°]`.  This is the spec-side definition a refinement
theorem compares against `World.visibleCode`. -/
def bearingDeviation (bearing heading : ℚ) : ℚ :=
  min (pyMod (bearing - heading) 360) (360 - pyMod (bearing - heading) 360)

/-- The agent part of one `_target_check` step. -/
def World.targetStepA (a : Agent) : Agent := (World.targetStep a).1

/-- Concrete intruder with fresh counters sitting 0.1 from its target,
used by witnesses. -/
def dwellAgent : Agent :=
  ⟨3, true, ⟨⟨0, 0⟩, 0, 6, 45, 1, false, [], false, false, 0, 0, 0, ⟨1/10, 0⟩⟩⟩

/-- Concrete intruder re-entering its target after a 3-second absence
with one prior visit, used by the C6 witness. -/
def revisitAgent : Agent :=
  ⟨4, true, ⟨⟨0, 0⟩, 0, 6, 45, 1, false, [], false, false, 0, 60, 1, ⟨1/10, 0⟩⟩⟩

/-- Identity behavior callback: a strategy that does nothing. -/
def cbId : Agent → AgentState := fun a => a.st

/-- Identity noise callback: an `on_noise` handler that does nothing (as
the strategies in `src/ai/agents.py` do). -/
def cbNoiseId : Agent → List NoiseEvent → AgentState := fun a _ => a.st

/-- A placeholder for `vectormath`'s `as_length`; the concrete runs
below never take the corner-snap branch, so their results do not depend
on it. -/
def aLId : Pos → ℚ → Pos := fun v _ => v

/-- A random draw whose uniform sample 1 exceeds the emission chance of
every map used below, so no ambient noise is emitted. -/
def randNone : RandInput := ⟨1, 0, 0⟩

/-- A 30×30 map with no walls. -/
def openMap : Map := ⟨30, 30, fun _ _ => false⟩

/-- A guard at the origin, an intruder 0.3 away from it, and a second
intruder far from everything (so the game never ends). -/
def captureWorld : World :=
  ⟨openMap,
   [⟨0, false, ⟨⟨0, 0⟩, 0, 6, 45, 1/5, false, [], false, false, 0, 0, 0, ⟨0, 0⟩⟩⟩,
    ⟨1, true, ⟨⟨3/10, 0⟩, 0, 6, 45, 1/5, false, [], false, false, 0, 0, 0, ⟨20, 20⟩⟩⟩,
    ⟨2, true, ⟨⟨10, 10⟩, 0, 6, 45, 1/5, false, [], false, false, 0, 0, 0, ⟨20, 20⟩⟩⟩],
   [], [], 0⟩

/-- A world with a single guard and no intruders. -/
def guardOnlyWorld : World :=
  ⟨openMap, [⟨0, false, ⟨⟨1, 1⟩, 0, 6, 45, 1/5, false, [], false, false, 0, 0, 0, ⟨0, 0⟩⟩⟩],
   [], [], 0⟩

/-- The three per-intruder target counters of an agent, as one tuple. -/
def targetCounters (a : Agent) : ℚ × ℚ × ℚ :=
  (a.st.ticks_in_target, a.st.ticks_since_target, a.st.times_visited_target)

/-- A world with a single, already-captured intruder sitting within 0.5
of its target point. -/
def preCapturedWorld : World :=
  ⟨openMap,
   [⟨5, true, ⟨⟨1, 1⟩, 0, 6, 45, 1/5, false, [], true, false, 0, 0, 0, ⟨11/10, 1⟩⟩⟩],
   [], [], 0⟩

/-- A world carrying one current and one historical noise event. -/
def noisyWorld : World :=
  ⟨openMap, [], [⟨0, ⟨2, 2⟩, none, 5/2⟩], [⟨0, ⟨1, 1⟩, none, 5/2⟩], 3⟩

/-- A guard standing clear of all walls in the open map. -/
def clearAgent : Agent :=
  ⟨6, false, ⟨⟨3/2, 3/2⟩, 0, 6, 45, 1, false, [], false, false, 0, 0, 0, ⟨0, 0⟩⟩⟩

/-- A 3×3 map whose only wall cell is `(0, 1)`. -/
def wallMap : Map := ⟨3, 3, fun cx cy => cx == 0 && cy == 1⟩

/-- One intruder standing at `(0.4, 1.5)` — inside the wall cell — with
collision width 1. -/
def wallWorld : World :=
  ⟨wallMap,
   [⟨0, true, ⟨⟨2/5, 3/2⟩, 0, 6, 45, 1, false, [], false, false, 0, 0, 0, ⟨5/2, 5/2⟩⟩⟩],
   [], [], 0⟩

/-- A guard 0.3 away from a single not-yet-captured intruder that sits
within 0.5 of its own target: the capture check captures the last
intruder on this very tick. -/
def lastCaptureWorld : World :=
  ⟨openMap,
   [⟨0, false, ⟨⟨1, 1⟩, 0, 6, 45, 1/5, false, [], false, false, 0, 0, 0, ⟨0, 0⟩⟩⟩,
    ⟨1, true, ⟨⟨13/10, 1⟩, 0, 6, 45, 1/5, false, [], false, false, 0, 0, 0, ⟨7/5, 1⟩⟩⟩],
   [], [], 0⟩

@[simp] theorem Pos.add_def (p q : Pos) : p + q = ⟨p.x + q.x, p.y + q.y⟩ := rfl

@[simp] theorem Pos.sub_def (p q : Pos) : p - q = ⟨p.x - q.x, p.y - q.y⟩ := rfl

/-- For a positive modulus the Python modulo is nonnegative. -/
theorem pyMod_nonneg (x m : ℚ) (hm : 0 < m) : 0 ≤ pyMod x m := by
  have h := Int.floor_le (x / m)
  have h2 : m * (⌊x / m⌋ : ℚ) ≤ m * (x / m) :=
    mul_le_mul_of_nonneg_left h (le_of_lt hm)
  have h3 : m * (x / m) = x := by field_simp
  unfold pyMod
  linarith

/-- For a positive modulus the Python modulo is below the modulus. -/
theorem pyMod_lt (x m : ℚ) (hm : 0 < m) : pyMod x m < m := by
  have h := Int.lt_floor_add_one (x / m)
  have h2 : m * (x / m) < m * ((⌊x / m⌋ : ℚ) + 1) :=
    (mul_lt_mul_left hm).mpr h
  have h3 : m * (x / m) = x := by field_simp
  unfold pyMod
  nlinarith

/-- The Python modulo is invariant under shifting by integer multiples
of the modulus. -/
theorem pyMod_add_mul_int (x m : ℚ) (k : ℤ) (hm : m ≠ 0) :
    pyMod (x + m * (k : ℚ)) m = pyMod x m := by
  have hdiv : (x + m * (k : ℚ)) / m = x / m + (k : ℚ) := by field_simp; ring
  unfold pyMod
  rw [hdiv, Int.floor_add_int]
  push_cast
  ring

/-- On `[0, m)` the Python modulo is the identity. -/
theorem pyMod_eq_self (x m : ℚ) (hm : 0 < m) (h0 : 0 ≤ x) (h1 : x < m) :
    pyMod x m = x := by
  have hfl : ⌊x / m⌋ = 0 := by
    rw [Int.floor_eq_zero_iff]
    constructor
    · exact div_nonneg h0 (le_of_lt hm)
    · exact (div_lt_one hm).mpr h1
  unfold pyMod
  rw [hfl]
  push_cast
  ring

/-- The code's normalization `|((b - h + 180) % 360) - 180|` equals the
spec's absolute bearing deviation normalized into `[-180°, 180°]`
(stated as the circular distance), for every bearing and heading. -/
theorem angle_diff_eq_bearingDeviation (atanDeg heading : ℚ) :
    World.angle_diff atanDeg heading = bearingDeviation (-atanDeg + 90) heading := by
  have h360 : (0 : ℚ) < 360 := by norm_num
  set D : ℚ := -atanDeg + 90 - heading with hD
  set s : ℚ := pyMod D 360 with hs
  have hs0 : 0 ≤ s := pyMod_nonneg D 360 h360
  have hs1 : s < 360 := pyMod_lt D 360 h360
  have hDs : D + 180 = (s + 180) + 360 * (⌊D / 360⌋ : ℚ) := by
    rw [hs]; unfold pyMod; ring
  have hkey : World.angle_diff atanDeg heading = |pyMod (s + 180) 360 - 180| := by
    unfold World.angle_diff
    have harg : -atanDeg + 90 - heading + 180 = (s + 180) + 360 * (⌊D / 360⌋ : ℚ) := by
      rw [← hDs, hD]
    rw [harg, pyMod_add_mul_int _ _ _ (by norm_num)]
  have hbd : bearingDeviation (-atanDeg + 90) heading = min s (360 - s) := by
    unfold bearingDeviation
    rw [← hD, ← hs]
  rw [hkey, hbd]
  rcases lt_or_le s 180 with hcase | hcase
  · have h1 : pyMod (s + 180) 360 = s + 180 :=
      pyMod_eq_self _ _ h360 (by linarith) (by linarith)
    rw [h1]
    have h2 : |s + 180 - 180| = s := by
      rw [show s + 180 - 180 = s by ring]
      exact abs_of_nonneg hs0
    rw [h2, min_eq_left (by linarith)]
  · have hsplit : s + 180 = (s - 180) + 360 * ((1 : ℤ) : ℚ) := by push_cast; ring
    have h1 : pyMod (s + 180) 360 = s - 180 := by
      rw [hsplit, pyMod_add_mul_int _ _ _ (by norm_num)]
      exact pyMod_eq_self _ _ h360 (by linarith) (by linarith)
    rw [h1]
    have h2 : |s - 180 - 180| = 360 - s := by
      rw [show s - 180 - 180 = -(360 - s) by ring, abs_neg]
      exact abs_of_nonneg (by linarith)
    rw [h2, min_eq_right (by linarith)]

/-- Claim C4: an agent is in the observer's visible set iff (a) the
distance is ≤ the observer's `view_range` and the absolute bearing
deviation from the observer's heading, normalized into `[-180°, 180°]`,
is ≤ the observer's `view_angle`, or (b) the distance is ≤ 1.5 map
units; all boundaries inclusive.  Here `len` is the Euclidean distance,
`atanDeg` the mathematical angle of the offset vector in degrees, and
`-atanDeg + 90` the compass bearing the code compares against the
heading. -/
theorem visibleCode_iff_range_cone_or_near (len atanDeg heading vr va : ℚ) :
    World.visibleCode len atanDeg heading vr va = true ↔
      ((len ≤ vr ∧ bearingDeviation (-atanDeg + 90) heading ≤ va) ∨ len ≤ 3/2) := by
  unfold World.visibleCode
  rw [decide_eq_true_eq, angle_diff_eq_bearingDeviation]

/-- While an intruder with fresh counters sits inside the target radius,
`n + 1` applications of the target check leave `ticks_in_target = n + 1`,
one recorded visit, and `reached_target` set exactly when
`(n + 1) * TIME_PER_TICK ≥ 3`. -/
theorem dwell_state (a : Agent)
    (hin : distSq a.st.location a.st.target < sqQ (1/2))
    (h_in : a.st.ticks_in_target = 0) (h_since : a.st.ticks_since_target = 0)
    (h_vis : a.st.times_visited_target = 0) (h_r : a.st.reached_target = false) :
    ∀ n : ℕ, (World.targetStepA^[n + 1] a) =
      { a with st := { a.st with
          ticks_in_target := ((n : ℚ) + 1),
          ticks_since_target := 0,
          times_visited_target := 1,
          reached_target := decide (((n : ℚ) + 1) * World.TIME_PER_TICK ≥ 3) } } := by
  intro n
  induction n with
  | zero =>
    rw [Function.iterate_one]
    unfold World.targetStepA World.targetStep
    simp only [h_in, h_since, h_vis, h_r]
    norm_num [World.TIME_PER_TICK, World.TICK_RATE, hin]
  | succ n ih =>
    rw [Function.iterate_succ_apply', ih]
    unfold World.targetStepA World.targetStep
    have hne : ((n : ℚ) + 1) ≠ 0 := by positivity
    by_cases hc : (3 : ℚ) ≤ ((n : ℚ) + 1 + 1) * World.TIME_PER_TICK
    · simp only [hin, if_pos, hne]
      simp [hc, ge_iff_le]
    · have hc2 : ¬ ((3 : ℚ) ≤ ((n : ℚ) + 1) * World.TIME_PER_TICK) := by
        intro h
        apply hc
        have : ((n : ℚ) + 1) * World.TIME_PER_TICK ≤ ((n : ℚ) + 1 + 1) * World.TIME_PER_TICK := by
          norm_num [World.TIME_PER_TICK, World.TICK_RATE]
        linarith
      simp only [hin, if_pos, hne]
      simp [hc, hc2, ge_iff_le]

/-- Claim C5: an intruder with fresh dwell counters that stays within
0.5 of its target for 60 consecutive target checks (3.0 s at 20
ticks/s) has `reached_target` set on the 60th check, and
`on_reached_target` is invoked on that check; after only 59 checks
`reached_target` is still false.  The target check never moves the
agent, so staying within 0.5 is implied by the initial position. -/
theorem targetCheck_dwell_sixty_ticks (a : Agent)
    (hin : distSq a.st.location a.st.target < sqQ (1/2))
    (h_in : a.st.ticks_in_target = 0) (h_since : a.st.ticks_since_target = 0)
    (h_vis : a.st.times_visited_target = 0) (h_r : a.st.reached_target = false) :
    (World.targetStepA^[59] a).st.reached_target = false ∧
    (World.targetStepA^[60] a).st.reached_target = true ∧
    (World.targetStep (World.targetStepA^[59] a)).2 = [AgentEvent.on_reached_target a.ID] := by
  have h59 := dwell_state a hin h_in h_since h_vis h_r 58
  have h60 := dwell_state a hin h_in h_since h_vis h_r 59
  refine ⟨?_, ?_, ?_⟩
  · show (World.targetStepA^[58 + 1] a).st.reached_target = false
    rw [h59]
    norm_num [World.TIME_PER_TICK, World.TICK_RATE]
  · show (World.targetStepA^[59 + 1] a).st.reached_target = true
    rw [h60]
    norm_num [World.TIME_PER_TICK, World.TICK_RATE]
  · show (World.targetStep (World.targetStepA^[58 + 1] a)).2 = [AgentEvent.on_reached_target a.ID]
    rw [h59]
    unfold World.targetStep
    norm_num [hin, World.TIME_PER_TICK, World.TICK_RATE]

/-- Witness for claim C5 at a concrete intruder. -/
theorem targetCheck_dwell_sixty_ticks_witness :
    (distSq dwellAgent.st.location dwellAgent.st.target < sqQ (1/2) ∧
      dwellAgent.st.ticks_in_target = 0 ∧ dwellAgent.st.ticks_since_target = 0 ∧
      dwellAgent.st.times_visited_target = 0 ∧ dwellAgent.st.reached_target = false) ∧
    ((World.targetStepA^[59] dwellAgent).st.reached_target = false ∧
     (World.targetStepA^[60] dwellAgent).st.reached_target = true ∧
     (World.targetStep (World.targetStepA^[59] dwellAgent)).2 =
       [AgentEvent.on_reached_target dwellAgent.ID]) :=
  ⟨⟨by norm_num [dwellAgent, distSq, lengthSq, sqQ], rfl, rfl, rfl, rfl⟩,
   targetCheck_dwell_sixty_ticks dwellAgent
     (by norm_num [dwellAgent, distSq, lengthSq, sqQ]) rfl rfl rfl rfl⟩

/-- Claim C6: on a fresh entry into the target radius
(`ticks_in_target = 0` and within 0.5 this tick), `times_visited_target`
is incremented iff the time since the previous exit is ≥ 3.0 s or this
is the very first visit (and is left unchanged otherwise); and whenever
the updated `times_visited_target` is ≥ 2 the check marks
`reached_target` without invoking `on_reached_target` (on a fresh-entry
tick the dwell condition cannot fire, so no notification is sent). -/
theorem targetCheck_fresh_entry (a : Agent)
    (hin : distSq a.st.location a.st.target < sqQ (1/2))
    (h_in : a.st.ticks_in_target = 0) :
    ((World.targetStep a).1.st.times_visited_target = a.st.times_visited_target + 1 ↔
      (a.st.ticks_since_target * World.TIME_PER_TICK ≥ 3 ∨ a.st.times_visited_target = 0)) ∧
    (¬ (a.st.ticks_since_target * World.TIME_PER_TICK ≥ 3 ∨ a.st.times_visited_target = 0) →
      (World.targetStep a).1.st.times_visited_target = a.st.times_visited_target) ∧
    (2 ≤ (World.targetStep a).1.st.times_visited_target →
      (World.targetStep a).1.st.reached_target = true ∧ (World.targetStep a).2 = []) := by
  have hTPT : ¬ ((3 : ℚ) ≤ World.TIME_PER_TICK) := by
    norm_num [World.TIME_PER_TICK, World.TICK_RATE]
  have hin2 : distSq a.st.location a.st.target < sqQ 2⁻¹ := by
    rw [show ((2 : ℚ))⁻¹ = 1/2 by norm_num]
    exact hin
  unfold World.targetStep
  by_cases hC : a.st.ticks_since_target * World.TIME_PER_TICK ≥ 3 ∨ a.st.times_visited_target = 0
  · by_cases hv : (2 : ℚ) ≤ a.st.times_visited_target + 1
    · simp [hin, hin2, h_in, hC, hv, hTPT]
    · simp [hin, hin2, h_in, hC, hv, hTPT]
  · by_cases hv : (2 : ℚ) ≤ a.st.times_visited_target
    · simp [hin, hin2, h_in, hC, hv, hTPT]
    · simp [hin, hin2, h_in, hC, hv, hTPT]

/-- Witness for claim C6 at a concrete intruder: second qualifying
visit, `times_visited_target` reaches 2, `reached_target` is set with
no notification. -/
theorem targetCheck_fresh_entry_witness :
    (distSq revisitAgent.st.location revisitAgent.st.target < sqQ (1/2) ∧
      revisitAgent.st.ticks_in_target = 0) ∧
    (((World.targetStep revisitAgent).1.st.times_visited_target =
        revisitAgent.st.times_visited_target + 1 ↔
      (revisitAgent.st.ticks_since_target * World.TIME_PER_TICK ≥ 3 ∨
        revisitAgent.st.times_visited_target = 0)) ∧
     (¬ (revisitAgent.st.ticks_since_target * World.TIME_PER_TICK ≥ 3 ∨
        revisitAgent.st.times_visited_target = 0) →
      (World.targetStep revisitAgent).1.st.times_visited_target =
        revisitAgent.st.times_visited_target) ∧
     (2 ≤ (World.targetStep revisitAgent).1.st.times_visited_target →
      (World.targetStep revisitAgent).1.st.reached_target = true ∧
        (World.targetStep revisitAgent).2 = [])) :=
  ⟨⟨by norm_num [revisitAgent, distSq, lengthSq, sqQ], rfl⟩,
   targetCheck_fresh_entry revisitAgent
     (by norm_num [revisitAgent, distSq, lengthSq, sqQ]) rfl⟩

/-- The capture loop never clears `is_captured`. -/
theorem captureLoop_sticky (gs : List Agent) :
    ∀ (a : Agent) (evs : List AgentEvent), a.st.is_captured = true →
      (World.captureLoop a evs gs).1.st.is_captured = true := by
  induction gs with
  | nil =>
    intro a evs h
    exact h
  | cons g gs ih =>
    intro a evs h
    unfold World.captureLoop
    by_cases hd : distSq a.st.location g.st.location < sqQ (1/2)
    · rw [if_pos hd]
      exact ih _ _ rfl
    · rw [if_neg hd]
      exact ih _ _ h

/-- The capture loop only appends to the event accumulator. -/
theorem captureLoop_events_mono (gs : List Agent) :
    ∀ (a : Agent) (evs : List AgentEvent),
      ∃ t, (World.captureLoop a evs gs).2 = evs ++ t := by
  induction gs with
  | nil =>
    intro a evs
    exact ⟨[], by simp [World.captureLoop]⟩
  | cons g gs ih =>
    intro a evs
    unfold World.captureLoop
    by_cases hd : distSq a.st.location g.st.location < sqQ (1/2)
    · rw [if_pos hd]
      obtain ⟨t, ht⟩ := ih { a with st := { a.st with is_captured := true } }
        (evs ++ [.on_captured a.ID])
      exact ⟨[AgentEvent.on_captured a.ID] ++ t, by rw [ht]; simp⟩
    · rw [if_neg hd]
      exact ih a evs

/-- The capture loop preserves identity, class, location and the three
target counters of the processed intruder. -/
theorem captureLoop_preserves (gs : List Agent) :
    ∀ (a : Agent) (evs : List AgentEvent),
      (World.captureLoop a evs gs).1.ID = a.ID ∧
      (World.captureLoop a evs gs).1.isIntruder = a.isIntruder ∧
      (World.captureLoop a evs gs).1.st.location = a.st.location ∧
      (World.captureLoop a evs gs).1.st.ticks_in_target = a.st.ticks_in_target ∧
      (World.captureLoop a evs gs).1.st.ticks_since_target = a.st.ticks_since_target ∧
      (World.captureLoop a evs gs).1.st.times_visited_target = a.st.times_visited_target := by
  induction gs with
  | nil =>
    intro a evs
    exact ⟨rfl, rfl, rfl, rfl, rfl, rfl⟩
  | cons g gs ih =>
    intro a evs
    unfold World.captureLoop
    by_cases hd : distSq a.st.location g.st.location < sqQ (1/2)
    · rw [if_pos hd]
      exact ih _ _
    · rw [if_neg hd]
      exact ih a evs

/-- A guard within capture range anywhere in the list marks the
intruder captured and produces an `on_captured` notification for it. -/
theorem captureLoop_hit (gs : List Agent) :
    ∀ (a : Agent) (evs : List AgentEvent) (g : Agent), g ∈ gs →
      distSq a.st.location g.st.location < sqQ (1/2) →
      (World.captureLoop a evs gs).1.st.is_captured = true ∧
      AgentEvent.on_captured a.ID ∈ (World.captureLoop a evs gs).2 := by
  induction gs with
  | nil =>
    intro a evs g hg
    exact absurd hg (List.not_mem_nil g)
  | cons g' gs ih =>
    intro a evs g hg hd
    rcases List.mem_cons.mp hg with hg | hg
    · subst hg
      unfold World.captureLoop
      rw [if_pos hd]
      constructor
      · exact captureLoop_sticky gs _ _ rfl
      · obtain ⟨t, ht⟩ := captureLoop_events_mono gs
          { a with st := { a.st with is_captured := true } }
          (evs ++ [.on_captured a.ID])
        rw [ht]
        simp
    · unfold World.captureLoop
      by_cases hd' : distSq a.st.location g'.st.location < sqQ (1/2)
      · rw [if_pos hd']
        exact ih _ _ g hg hd
      · rw [if_neg hd']
        exact ih a evs g hg hd

/-- The capture check does not add or remove agents. -/
theorem capture_check_agents_length (w : World) :
    (World._capture_check w).1.agents.length = w.agents.length := by
  simp [World._capture_check]

/-- Claim C2 (amended): whenever the capture check runs with some guard
within Euclidean distance < 0.5 of an intruder, the intruder is marked
`is_captured` and `on_captured` is invoked during that check — including
when the intruder is already captured, so over a run the notification
fires on every tick a guard stays in range, not exactly once; and
`is_captured`, once set, is never cleared by the capture check. -/
theorem captureCheck_marks_and_notifies (w : World) (k : ℕ)
    (hk : k < w.agents.length)
    (hk' : k < (World._capture_check w).1.agents.length) :
    ((w.agents[k]).st.is_captured = true →
      ((World._capture_check w).1.agents[k]).st.is_captured = true) ∧
    ((w.agents[k]).isIntruder = true →
      ∀ g ∈ w.guards,
        distSq (w.agents[k]).st.location g.st.location < sqQ (1/2) →
        ((World._capture_check w).1.agents[k]).st.is_captured = true ∧
        AgentEvent.on_captured (w.agents[k]).ID ∈ (World._capture_check w).2.1) := by
  have hagents : (World._capture_check w).1.agents =
      w.agents.map (fun a => if a.isIntruder then (World.captureOne w.guards a).1 else a) := by
    simp [World._capture_check]
  have hget : (World._capture_check w).1.agents[k] =
      (fun a => if a.isIntruder then (World.captureOne w.guards a).1 else a) (w.agents[k]) := by
    rw [List.getElem_of_eq hagents, List.getElem_map]
  constructor
  · intro hcap
    rw [hget]
    by_cases hint : (w.agents[k]).isIntruder
    · simp only [hint, if_true]
      exact captureLoop_sticky w.guards _ _ hcap
    · simp only [hint, if_false, Bool.false_eq_true]
      exact hcap
  · intro hint g hg hd
    have hhit := captureLoop_hit w.guards (w.agents[k]) [] g hg hd
    constructor
    · rw [hget]
      simp only [hint, if_true]
      exact hhit.1
    · have hevs : (World._capture_check w).2.1 =
          (w.agents.map (fun a =>
            if a.isIntruder then (World.captureOne w.guards a).2 else [])).flatten := by
        simp [World._capture_check]
      rw [hevs]
      rw [List.mem_flatten]
      refine ⟨(World.captureOne w.guards (w.agents[k])).2, ?_, ?_⟩
      · rw [List.mem_map]
        refine ⟨w.agents[k], List.getElem_mem hk, ?_⟩
        simp only [hint, if_true]
      · exact hhit.2

/-- Claim C2 (counterexample): on the first tick the guard (distance
0.3) captures intruder 1 and `on_captured 1` is invoked; the intruder is
then marked `is_captured`, the guard stays within 0.5, and on the second
tick `on_captured 1` is invoked again — refuting the claim that
`on_captured` is never invoked again on later ticks even if a guard
remains within 0.5. -/
theorem captureNotification_repeats_cex :
    (World.tick cbId cbNoiseId aLId randNone captureWorld).events =
      [AgentEvent.on_captured 1] ∧
    ((World.tick cbId cbNoiseId aLId randNone captureWorld).world.agents.map
      (fun a => a.st.is_captured)) = [false, true, false] ∧
    (World.tick cbId cbNoiseId aLId randNone
      (World.tick cbId cbNoiseId aLId randNone captureWorld).world).events =
      [AgentEvent.on_captured 1] := by
  norm_num [World.tick, World.preCheckWorld, World.emit_random_noise, World.add_noise,
    World._collision_check, World.collisionOne, World.boundsClamp, World.collision_point,
    World.circle_collision, World.cornerSnap, World._capture_check, World.captureOne,
    World.captureLoop, World._target_check, World.targetStep, World.guards, World.intruders,
    distSq, lengthSq, sqQ, cbId, cbNoiseId, aLId, randNone, captureWorld, openMap,
    World.TIME_PER_TICK, World.TICK_RATE]

/-- Witness for the amended claim C2 theorem at the concrete world: the
notification for intruder 1 is produced by the capture check. -/
theorem captureCheck_marks_and_notifies_witness :
    AgentEvent.on_captured 1 ∈ (World._capture_check captureWorld).2.1 := by
  have hk : 1 < captureWorld.agents.length := by norm_num [captureWorld]
  have hk' : 1 < (World._capture_check captureWorld).1.agents.length := by
    rw [capture_check_agents_length]
    exact hk
  have h := (captureCheck_marks_and_notifies captureWorld 1 hk hk').2
  have hID : (captureWorld.agents[1]).ID = 1 := rfl
  have hmem : (⟨0, false, ⟨⟨0, 0⟩, 0, 6, 45, 1/5, false, [], false, false, 0, 0, 0, ⟨0, 0⟩⟩⟩ : Agent)
      ∈ captureWorld.guards := by
    norm_num [World.guards, captureWorld]
  have hd : distSq (captureWorld.agents[1]).st.location
      (⟨0, false, ⟨⟨0, 0⟩, 0, 6, 45, 1/5, false, [], false, false, 0, 0, 0, ⟨0, 0⟩⟩⟩ : Agent).st.location
      < sqQ (1/2) := by
    norm_num [captureWorld, distSq, lengthSq, sqQ]
  have := (h rfl _ hmem hd).2
  rwa [hID] at this

/-- Random noise emission does not touch the agent list. -/
theorem emit_random_noise_agents (r : RandInput) (w : World) :
    (World.emit_random_noise r w).agents = w.agents := by
  simp only [World.emit_random_noise, World.add_noise]
  split <;> rfl

/-- Every agent of the pre-check world descends from an input agent
with the same class tag (callbacks and collisions cannot change the
class). -/
theorem preCheckWorld_isIntruder (cb : Agent → AgentState)
    (cbNoise : Agent → List NoiseEvent → AgentState)
    (aL : Pos → ℚ → Pos) (r : RandInput) (w : World) :
    ∀ a ∈ (World.preCheckWorld cb cbNoise aL r w).agents,
      ∃ b ∈ w.agents, a.isIntruder = b.isIntruder := by
  intro a ha
  unfold World.preCheckWorld World._collision_check at ha
  simp only [emit_random_noise_agents] at ha
  simp only [List.mem_map] at ha
  obtain ⟨a2, ⟨a1, ⟨a0, ha0, rfl⟩, rfl⟩, rfl⟩ := ha
  exact ⟨a0, ha0, rfl⟩

/-- If the world has no intruders, the capture check's universal
quantification is vacuous and it reports all-captured. -/
theorem capture_flag_of_no_intruders (w : World)
    (h : ∀ a ∈ w.agents, a.isIntruder = false) :
    (World._capture_check w).2.2 = true := by
  simp only [World._capture_check, World.intruders]
  have hnil : (w.agents.map (fun a =>
      if a.isIntruder then (World.captureOne w.guards a).1 else a)).filter
        (fun a => a.isIntruder) = [] := by
    rw [List.filter_eq_nil_iff]
    intro a ha
    rw [List.mem_map] at ha
    obtain ⟨b, hb, rfl⟩ := ha
    simp [h b hb]
  rw [hnil]
  rfl

/-- Claim C10: if the world contains no intruder agents, the very first
call to `tick()` returns true and reports that the guards win, for
every behavior callback, noise callback, `as_length` function, random
draw, map and noise state. -/
theorem tick_no_intruders_guards_win (cb : Agent → AgentState)
    (cbNoise : Agent → List NoiseEvent → AgentState)
    (aL : Pos → ℚ → Pos) (r : RandInput) (w : World)
    (h : ∀ a ∈ w.agents, a.isIntruder = false) :
    (World.tick cb cbNoise aL r w).winner = some Winner.guards ∧
    (World.tick cb cbNoise aL r w).finished = true := by
  have hw4 : ∀ a ∈ (World.preCheckWorld cb cbNoise aL r w).agents, a.isIntruder = false := by
    intro a ha
    obtain ⟨b, hb, he⟩ := preCheckWorld_isIntruder cb cbNoise aL r w a ha
    rw [he]
    exact h b hb
  have hflag := capture_flag_of_no_intruders _ hw4
  unfold World.tick
  rw [if_pos hflag]
  exact ⟨rfl, rfl⟩

/-- Witness for claim C10 at a concrete world with one guard. -/
theorem tick_no_intruders_guards_win_witness :
    (∀ a ∈ guardOnlyWorld.agents, a.isIntruder = false) ∧
    ((World.tick cbId cbNoiseId aLId randNone guardOnlyWorld).winner = some Winner.guards ∧
     (World.tick cbId cbNoiseId aLId randNone guardOnlyWorld).finished = true) :=
  ⟨by simp [guardOnlyWorld],
   tick_no_intruders_guards_win cbId cbNoiseId aLId randNone guardOnlyWorld
     (by simp [guardOnlyWorld])⟩

/-- Random noise emission does not touch the map. -/
theorem emit_random_noise_map (r : RandInput) (w : World) :
    (World.emit_random_noise r w).map = w.map := by
  simp only [World.emit_random_noise, World.add_noise]
  split <;> rfl

/-- The agent list of the pre-check world, as a single map over the
input agents: callback, then collision resolution, then the noise
callback. -/
theorem preCheckWorld_agents_eq (cb : Agent → AgentState)
    (cbNoise : Agent → List NoiseEvent → AgentState)
    (aL : Pos → ℚ → Pos) (r : RandInput) (w : World) :
    (World.preCheckWorld cb cbNoise aL r w).agents =
      w.agents.map (fun b =>
        let b2 := World.collisionOne w.map aL { b with st := cb b }
        { b2 with st := cbNoise b2 (World.emit_random_noise r
            { w with old_noises := w.old_noises ++ w.noises, noises := [] }).noises }) := by
  unfold World.preCheckWorld World._collision_check
  simp only [emit_random_noise_agents, emit_random_noise_map, List.map_map]
  rfl

/-- Collision resolution only rewrites `location` and `has_collided`:
identity, class and the win/target fields are untouched. -/
theorem collisionOne_preserves (m : Map) (aL : Pos → ℚ → Pos) (a : Agent) :
    (World.collisionOne m aL a).ID = a.ID ∧
    (World.collisionOne m aL a).isIntruder = a.isIntruder ∧
    (World.collisionOne m aL a).st.is_captured = a.st.is_captured ∧
    (World.collisionOne m aL a).st.ticks_in_target = a.st.ticks_in_target ∧
    (World.collisionOne m aL a).st.ticks_since_target = a.st.ticks_since_target ∧
    (World.collisionOne m aL a).st.times_visited_target = a.st.times_visited_target ∧
    (World.collisionOne m aL a).st.reached_target = a.st.reached_target :=
  ⟨rfl, rfl, rfl, rfl, rfl, rfl, rfl⟩

/-- The capture phase of `_capture_check` preserves the class tag of
every agent. -/
theorem captureMap_isIntruder (gs : List Agent) (a : Agent) :
    (if a.isIntruder then (World.captureOne gs a).1 else a).isIntruder = a.isIntruder := by
  by_cases h : a.isIntruder
  · rw [if_pos h]
    exact (captureLoop_preserves gs a []).2.1
  · rw [if_neg h]

/-- The capture phase of `_capture_check` preserves the target counters
of every agent. -/
theorem captureMap_counters (gs : List Agent) (a : Agent) :
    targetCounters (if a.isIntruder then (World.captureOne gs a).1 else a)
      = targetCounters a := by
  by_cases h : a.isIntruder
  · rw [if_pos h]
    unfold targetCounters World.captureOne
    rw [(captureLoop_preserves gs a []).2.2.2.1,
      (captureLoop_preserves gs a []).2.2.2.2.1,
      (captureLoop_preserves gs a []).2.2.2.2.2]
  · rw [if_neg h]

/-- Claim C1 (amended): on every tick on which the capture check
reports all intruders captured — including the tick on which the check
captures the last intruder itself — `tick()` reports "guards win" and
returns before the target check runs, so the per-intruder target
counters (`ticks_in_target`, `ticks_since_target`,
`times_visited_target`) are not updated on that tick (for strategy
callbacks that leave the counters alone, as the engine's own phases
do). -/
theorem tick_all_captured_guards_win_counters_frozen
    (cb : Agent → AgentState) (cbNoise : Agent → List NoiseEvent → AgentState)
    (aL : Pos → ℚ → Pos) (r : RandInput) (w : World)
    (hflag : (World._capture_check (World.preCheckWorld cb cbNoise aL r w)).2.2 = true)
    (hcb : ∀ a, (cb a).ticks_in_target = a.st.ticks_in_target ∧
      (cb a).ticks_since_target = a.st.ticks_since_target ∧
      (cb a).times_visited_target = a.st.times_visited_target)
    (hcbn : ∀ a l, (cbNoise a l).ticks_in_target = a.st.ticks_in_target ∧
      (cbNoise a l).ticks_since_target = a.st.ticks_since_target ∧
      (cbNoise a l).times_visited_target = a.st.times_visited_target) :
    (World.tick cb cbNoise aL r w).winner = some Winner.guards ∧
    (World.tick cb cbNoise aL r w).finished = true ∧
    (World.tick cb cbNoise aL r w).world.agents.map targetCounters =
      w.agents.map targetCounters := by
  unfold World.tick
  rw [if_pos hflag]
  refine ⟨rfl, rfl, ?_⟩
  show (World._capture_check (World.preCheckWorld cb cbNoise aL r w)).1.agents.map _ = _
  have hagents : (World._capture_check (World.preCheckWorld cb cbNoise aL r w)).1.agents =
      (World.preCheckWorld cb cbNoise aL r w).agents.map (fun a =>
        if a.isIntruder then (World.captureOne
          (World.guards (World.preCheckWorld cb cbNoise aL r w)) a).1 else a) := by
    simp [World._capture_check]
  rw [hagents, preCheckWorld_agents_eq, List.map_map, List.map_map]
  apply List.map_congr_left
  intro b hb
  have hstep2 : targetCounters
      ({ (World.collisionOne w.map aL { b with st := cb b }) with
          st := cbNoise (World.collisionOne w.map aL { b with st := cb b })
            (World.emit_random_noise r
              { w with
                old_noises := w.old_noises ++ w.noises
                noises := [] }).noises } : Agent) = targetCounters b := by
    show ((cbNoise (World.collisionOne w.map aL { b with st := cb b }) _).ticks_in_target,
          (cbNoise (World.collisionOne w.map aL { b with st := cb b }) _).ticks_since_target,
          (cbNoise (World.collisionOne w.map aL { b with st := cb b }) _).times_visited_target)
        = targetCounters b
    rw [(hcbn _ _).1, (hcbn _ _).2.1, (hcbn _ _).2.2,
      (collisionOne_preserves _ _ _).2.2.2.1, (collisionOne_preserves _ _ _).2.2.2.2.1,
      (collisionOne_preserves _ _ _).2.2.2.2.2.1]
    show ((cb b).ticks_in_target, (cb b).ticks_since_target, (cb b).times_visited_target)
        = targetCounters b
    rw [(hcb b).1, (hcb b).2.1, (hcb b).2.2]
    rfl
  exact (captureMap_counters _ _).trans hstep2

/-- Claim C1 (counterexample): on a tick where the capture check finds
all intruders captured, the intruder is within 0.5 of its target point
with fresh counters, yet after `tick()` reports the guards win its
`ticks_in_target`, `ticks_since_target` and `times_visited_target` are
still `(0, 0, 0)` — the target check never ran, refuting the claim that
the per-intruder target counters are still updated on that tick (an
update would have set `ticks_in_target = 1` and
`times_visited_target = 1`). -/
theorem tick_all_captured_counters_not_updated_cex :
    (preCapturedWorld.agents.map
      (fun a => decide (distSq a.st.location a.st.target < sqQ (1/2)))) = [true] ∧
    (World.tick cbId cbNoiseId aLId randNone preCapturedWorld).winner = some Winner.guards ∧
    (World.tick cbId cbNoiseId aLId randNone preCapturedWorld).finished = true ∧
    (World.tick cbId cbNoiseId aLId randNone preCapturedWorld).world.agents.map
      (fun a => a.st.is_captured) = [true] ∧
    (World.tick cbId cbNoiseId aLId randNone preCapturedWorld).world.agents.map
      targetCounters = [(0, 0, 0)] := by
  norm_num [World.tick, World.preCheckWorld, World.emit_random_noise, World.add_noise,
    World._collision_check, World.collisionOne, World.boundsClamp, World.collision_point,
    World.circle_collision, World.cornerSnap, World._capture_check, World.captureOne,
    World.captureLoop, World._target_check, World.targetStep, World.guards, World.intruders,
    targetCounters, distSq, lengthSq, sqQ, cbId, cbNoiseId, aLId, randNone,
    preCapturedWorld, openMap, World.TIME_PER_TICK, World.TICK_RATE]

set_option maxHeartbeats 1000000 in
/-- Witness for the amended claim C1 theorem at a concrete world where
the capture check captures the last intruder on the winning tick
itself: the intruder starts uncaptured and inside its target radius,
and its counters stay `(0, 0, 0)`. -/
theorem tick_all_captured_guards_win_counters_frozen_witness :
    ((World._capture_check (World.preCheckWorld cbId cbNoiseId aLId randNone
        lastCaptureWorld)).2.2 = true ∧
     lastCaptureWorld.agents.map (fun a => a.st.is_captured) = [false, false] ∧
     lastCaptureWorld.agents.map
       (fun a => decide (distSq a.st.location a.st.target < sqQ (1/2))) = [false, true]) ∧
    ((World.tick cbId cbNoiseId aLId randNone lastCaptureWorld).winner = some Winner.guards ∧
     (World.tick cbId cbNoiseId aLId randNone lastCaptureWorld).finished = true ∧
     (World.tick cbId cbNoiseId aLId randNone lastCaptureWorld).world.agents.map
        targetCounters = lastCaptureWorld.agents.map targetCounters) :=
  ⟨⟨by norm_num [World.preCheckWorld, World.emit_random_noise, World.add_noise,
      World._collision_check, World.collisionOne, World.boundsClamp, World.collision_point,
      World.circle_collision, World.cornerSnap, World._capture_check, World.captureOne,
      World.captureLoop, World.guards, World.intruders, distSq, lengthSq, sqQ, cbId,
      cbNoiseId, aLId, randNone, lastCaptureWorld, openMap,
      World.TIME_PER_TICK, World.TICK_RATE],
    by norm_num [lastCaptureWorld],
    by norm_num [lastCaptureWorld, distSq, lengthSq, sqQ]⟩,
   tick_all_captured_guards_win_counters_frozen cbId cbNoiseId aLId randNone lastCaptureWorld
     (by norm_num [World.preCheckWorld, World.emit_random_noise, World.add_noise,
       World._collision_check, World.collisionOne, World.boundsClamp, World.collision_point,
       World.circle_collision, World.cornerSnap, World._capture_check, World.captureOne,
       World.captureLoop, World.guards, World.intruders, distSq, lengthSq, sqQ, cbId,
       cbNoiseId, aLId, randNone, lastCaptureWorld, openMap,
       World.TIME_PER_TICK, World.TICK_RATE])
     (fun a => ⟨rfl, rfl, rfl⟩)
     (fun a l => ⟨rfl, rfl, rfl⟩)⟩

/-- Claim C7 (counterexample): transmitting a message whose target
AgentID (5) is not a key of the agent map is not a recoverable
log-and-drop — the dictionary lookup raises an uncaught `KeyError` that
aborts the caller. -/
theorem transmit_unknown_target_keyError_cex :
    World.transmit_message guardOnlyWorld ⟨0, 5, "hello"⟩ =
      Except.error TransmitError.keyError := by
  norm_num [World.transmit_message, guardOnlyWorld]

/-- Claim C7 (amended): for every message whose target is not the ID of
any agent in the world, `transmit_message` raises `KeyError`; the
lookup fails before the append executes, so no agent's inbound queue is
changed, but the exception escapes (nothing in `World` catches it),
aborting the tick-level caller. -/
theorem transmit_unknown_target_raises (w : World) (m : Message)
    (h : ∀ a ∈ w.agents, a.ID ≠ m.target) :
    World.transmit_message w m = Except.error TransmitError.keyError := by
  unfold World.transmit_message
  rw [if_neg]
  intro hany
  rw [List.any_eq_true] at hany
  obtain ⟨a, ha, he⟩ := hany
  exact h a ha (by simpa using he)

/-- Witness for the amended claim C7 theorem at a concrete world. -/
theorem transmit_unknown_target_raises_witness :
    (∀ a ∈ guardOnlyWorld.agents, a.ID ≠ (⟨0, 5, "hi"⟩ : Message).target) ∧
    World.transmit_message guardOnlyWorld ⟨0, 5, "hi"⟩ =
      Except.error TransmitError.keyError :=
  ⟨by norm_num [guardOnlyWorld],
   transmit_unknown_target_raises guardOnlyWorld ⟨0, 5, "hi"⟩
     (by norm_num [guardOnlyWorld])⟩

/-- Random noise emission never touches the historical noise list. -/
theorem emit_random_noise_old_noises (r : RandInput) (w : World) :
    (World.emit_random_noise r w).old_noises = w.old_noises := by
  simp only [World.emit_random_noise, World.add_noise]
  split <;> rfl

/-- The historical list after the pre-check phase of a tick: exactly
the old history extended, in order, by the previous current-tick
list. -/
theorem preCheckWorld_old_noises (cb : Agent → AgentState)
    (cbNoise : Agent → List NoiseEvent → AgentState)
    (aL : Pos → ℚ → Pos) (r : RandInput) (w : World) :
    (World.preCheckWorld cb cbNoise aL r w).old_noises = w.old_noises ++ w.noises := by
  show (World.emit_random_noise r
    { w with old_noises := w.old_noises ++ w.noises, noises := [] }).old_noises = _
  rw [emit_random_noise_old_noises]

/-- Random noise emission adds at most one event to an empty current
list. -/
theorem emit_random_noise_length (r : RandInput) (w : World) (h : w.noises = []) :
    (World.emit_random_noise r w).noises.length ≤ 1 := by
  simp only [World.emit_random_noise, World.add_noise]
  split
  · rw [h]
    simp
  · rw [h]
    simp

/-- Claim C8: on every `tick()`, the events of the current noise list
are appended in order to the historical list and the current list is
cleared before at most one new ambient event is emitted; and no `World`
operation (`add_noise`, `emit_random_noise`, collision / capture /
target checks, or a successful `transmit_message`) ever removes an
element from the historical list — each leaves it exactly as it was. -/
theorem noise_history_append_only (cb : Agent → AgentState)
    (cbNoise : Agent → List NoiseEvent → AgentState)
    (aL : Pos → ℚ → Pos) (r : RandInput) (w : World) (n : NoiseEvent) (m : Message) :
    (World.tick cb cbNoise aL r w).world.old_noises = w.old_noises ++ w.noises ∧
    (World.tick cb cbNoise aL r w).world.noises.length ≤ 1 ∧
    (World.add_noise w n).old_noises = w.old_noises ∧
    (World.emit_random_noise r w).old_noises = w.old_noises ∧
    (World._collision_check aL w).old_noises = w.old_noises ∧
    (World._capture_check w).1.old_noises = w.old_noises ∧
    (World._target_check w).1.old_noises = w.old_noises ∧
    (∀ w', World.transmit_message w m = Except.ok w' → w'.old_noises = w.old_noises) := by
  refine ⟨?_, ?_, rfl, emit_random_noise_old_noises r w, rfl, rfl, rfl, ?_⟩
  · simp only [World.tick]
    split
    · exact preCheckWorld_old_noises cb cbNoise aL r w
    · split
      · exact preCheckWorld_old_noises cb cbNoise aL r w
      · exact preCheckWorld_old_noises cb cbNoise aL r w
  · simp only [World.tick]
    split
    · exact emit_random_noise_length r _ rfl
    · split
      · exact emit_random_noise_length r _ rfl
      · exact emit_random_noise_length r _ rfl
  · intro w' hw'
    unfold World.transmit_message at hw'
    by_cases hany : w.agents.any (fun a => a.ID == m.target)
    · rw [if_pos hany] at hw'
      cases hw'
      rfl
    · rw [if_neg hany] at hw'
      cases hw'

/-- Witness for claim C8 at a concrete world with a nonempty noise
list. -/
theorem noise_history_append_only_witness :
    (World.tick cbId cbNoiseId aLId randNone noisyWorld).world.old_noises =
      noisyWorld.old_noises ++ noisyWorld.noises ∧
    (World.tick cbId cbNoiseId aLId randNone noisyWorld).world.noises.length ≤ 1 ∧
    (World.add_noise noisyWorld ⟨0, ⟨2, 2⟩, none, 5/2⟩).old_noises = noisyWorld.old_noises ∧
    (World.emit_random_noise randNone noisyWorld).old_noises = noisyWorld.old_noises ∧
    (World._collision_check aLId noisyWorld).old_noises = noisyWorld.old_noises ∧
    (World._capture_check noisyWorld).1.old_noises = noisyWorld.old_noises ∧
    (World._target_check noisyWorld).1.old_noises = noisyWorld.old_noises ∧
    (∀ w', World.transmit_message noisyWorld ⟨0, 1, "x"⟩ = Except.ok w' →
      w'.old_noises = noisyWorld.old_noises) :=
  noise_history_append_only cbId cbNoiseId aLId randNone noisyWorld
    ⟨0, ⟨2, 2⟩, none, 5/2⟩ ⟨0, 1, "x"⟩

/-- Claim C9: for an agent inside the map bounds whose four edge-probe
points and four corner-probe points all fall in non-wall cells,
collision resolution leaves the agent (position and has-collided flag)
unchanged — and hence running it again is a no-op. -/
theorem collision_clear_noop (m : Map) (aL : Pos → ℚ → Pos) (a : Agent)
    (hx0 : 0 ≤ a.st.location.x) (hxw : a.st.location.x < (m.width : ℚ))
    (hy0 : 0 ≤ a.st.location.y) (hyh : a.st.location.y < (m.height : ℚ))
    (hL : m.is_wall ⌊a.st.location.x - a.st.width/2⌋ ⌊a.st.location.y⌋ = false)
    (hR : m.is_wall ⌊a.st.location.x + a.st.width/2⌋ ⌊a.st.location.y⌋ = false)
    (hB : m.is_wall ⌊a.st.location.x⌋ ⌊a.st.location.y - a.st.width/2⌋ = false)
    (hT : m.is_wall ⌊a.st.location.x⌋ ⌊a.st.location.y + a.st.width/2⌋ = false)
    (hBL : m.is_wall ⌊a.st.location.x - a.st.width/2⌋ ⌊a.st.location.y - a.st.width/2⌋ = false)
    (hTL : m.is_wall ⌊a.st.location.x - a.st.width/2⌋ ⌊a.st.location.y + a.st.width/2⌋ = false)
    (hBR : m.is_wall ⌊a.st.location.x + a.st.width/2⌋ ⌊a.st.location.y - a.st.width/2⌋ = false)
    (hTR : m.is_wall ⌊a.st.location.x + a.st.width/2⌋ ⌊a.st.location.y + a.st.width/2⌋ = false) :
    World.collisionOne m aL a = a ∧
    World.collisionOne m aL (World.collisionOne m aL a) = World.collisionOne m aL a := by
  have hclamp : World.boundsClamp m a.st.location = a.st.location := by
    simp only [World.boundsClamp]
    rw [if_neg (not_lt.mpr hx0), if_neg (not_lt.mpr hy0),
      if_neg (not_le.mpr hxw), if_neg (not_le.mpr hyh)]
  have h1 : World.collisionOne m aL a = a := by
    simp only [World.collisionOne, hclamp]
    simp [World.collision_point, World.circle_collision, World.cornerSnap,
      hL, hR, hB, hT, hBL, hTL, hBR, hTR]
  refine ⟨h1, ?_⟩
  rw [h1]
  exact h1

/-- Witness for claim C9 at a concrete agent and map. -/
theorem collision_clear_noop_witness :
    (0 ≤ clearAgent.st.location.x ∧ clearAgent.st.location.x < (openMap.width : ℚ) ∧
     0 ≤ clearAgent.st.location.y ∧ clearAgent.st.location.y < (openMap.height : ℚ)) ∧
    (World.collisionOne openMap aLId clearAgent = clearAgent ∧
     World.collisionOne openMap aLId (World.collisionOne openMap aLId clearAgent) =
       World.collisionOne openMap aLId clearAgent) :=
  ⟨⟨by norm_num [clearAgent], by norm_num [clearAgent, openMap],
    by norm_num [clearAgent], by norm_num [clearAgent, openMap]⟩,
   collision_clear_noop openMap aLId clearAgent
     (by norm_num [clearAgent]) (by norm_num [clearAgent, openMap])
     (by norm_num [clearAgent]) (by norm_num [clearAgent, openMap])
     rfl rfl rfl rfl rfl rfl rfl rfl⟩

/-- Claim C3 (amended): the bounds clamp that opens collision
resolution puts every position into `[0, width) × [0, height)` (for
maps at least one cell wide and high); but the subsequent edge push and
corner snap run after the clamp and can move a position back out of
bounds, so the invariant does not hold of the positions left by
`tick()` (see the counterexample). -/
theorem boundsClamp_in_bounds (m : Map) (p : Pos) (hw : 1 ≤ m.width) (hh : 1 ≤ m.height) :
    0 ≤ (World.boundsClamp m p).x ∧ (World.boundsClamp m p).x < (m.width : ℚ) ∧
    0 ≤ (World.boundsClamp m p).y ∧ (World.boundsClamp m p).y < (m.height : ℚ) := by
  have hw' : (1 : ℚ) ≤ (m.width : ℚ) := by exact_mod_cast hw
  have hh' : (1 : ℚ) ≤ (m.height : ℚ) := by exact_mod_cast hh
  simp only [World.boundsClamp]
  split_ifs <;>
    refine ⟨by linarith, by linarith, by linarith, by linarith⟩

/-- Witness for the amended claim C3 theorem at a concrete
out-of-bounds position. -/
theorem boundsClamp_in_bounds_witness :
    (1 ≤ openMap.width ∧ 1 ≤ openMap.height) ∧
    (0 ≤ (World.boundsClamp openMap ⟨-5, 99⟩).x ∧
     (World.boundsClamp openMap ⟨-5, 99⟩).x < (openMap.width : ℚ) ∧
     0 ≤ (World.boundsClamp openMap ⟨-5, 99⟩).y ∧
     (World.boundsClamp openMap ⟨-5, 99⟩).y < (openMap.height : ℚ)) :=
  ⟨⟨by norm_num [openMap], by norm_num [openMap]⟩,
   boundsClamp_in_bounds openMap ⟨-5, 99⟩
     (by norm_num [openMap]) (by norm_num [openMap])⟩

/-- Claim C3 (counterexample): after `tick()` on `wallWorld`, the edge
probes into the wall cell push the agent to `(-1/2, 5/2)` — its x
coordinate is negative, outside `[0, width)`.  (The corner probes hit
the wall cell too, but the snap circle test fails, so the result does
not depend on the `as_length` stand-in.) -/
theorem tick_position_out_of_bounds_cex :
    (World.tick cbId cbNoiseId aLId randNone wallWorld).world.agents.map
      (fun a => a.st.location) = [⟨-(1/2), 5/2⟩] ∧
    ¬ (∀ a ∈ (World.tick cbId cbNoiseId aLId randNone wallWorld).world.agents,
        0 ≤ a.st.location.x) := by
  norm_num [World.tick, World.preCheckWorld, World.emit_random_noise, World.add_noise,
    World._collision_check, World.collisionOne, World.boundsClamp, World.collision_point,
    World.circle_collision, World.cornerSnap, World._capture_check, World.captureOne,
    World.captureLoop, World._target_check, World.targetStep, World.guards, World.intruders,
    distSq, lengthSq, sqQ, cbId, cbNoiseId, aLId, randNone, wallWorld, wallMap,
    World.TIME_PER_TICK, World.TICK_RATE]
